import Mathlib

/-!
Shallow embedding of the Account-Tracking-App backend (Express + MySQL models).

Modelling conventions:
* The MySQL database is a record of lists of rows (`DB`).  SQL `UPDATE ... WHERE`
  is a `List.map` that rewrites every matching row, `DELETE` is a `List.filter`,
  `INSERT` appends, `SELECT ... rows[0]` is `List.head?` of a `List.filter`,
  `COUNT(*)` is `List.countP`/`List.length`; each statement is atomic, matching
  the storage assumption of the spec.
* Monetary amounts and balances are integers counted in hundredths of the
  currency unit (two-decimal fixed point, the grid of the decimal
  amounts in the source), so the literal `999999999.99` of the controller becomes
  `99999999999` hundredths.
* JavaScript truthiness is modelled explicitly: a missing / `null` / `undefined`
  string field is `Option.none`, and helpers `truthy`, `jsOrNull`, `jsOr`,
  `natTruthy`, `intTruthy` reproduce the `if (x)` / `x || y` idioms.  A numeric
  id that is absent, non-numeric or `0` is modelled as `0` (all are falsy for
  `!id || isNaN(id)` checks).
* Each model function returns the resulting database state together with the
  `success`/`error` envelope (`Res`); the state is returned on errors as well,
  because a JS early `return` leaves every mutation already issued in place.
-/

/-- Transaction types of the `transactions` table
(`income / expense / receivable / payable`). -/
inductive TType where
  | income
  | expense
  | receivable
  | payable
deriving DecidableEq, Repr

/-- Balance operations accepted by `Transactions.updateAccountBalance`. -/
inductive BalanceOp where
  | add
  | subtract
deriving DecidableEq, Repr

/-- Error kinds, one per distinct error message returned by the embedded code. -/
inductive ApiError where
  | accountIdRequired
  | invalidType
  | invalidAmount
  | dateRequired
  | accountNotFound
  | duplicateReference
  | notFound
  | updateFailed
  | deleteFailed
  | accountMissing
  | nameRequired
  | duplicateCode
  | duplicateName
  | groupRefMissing
  | invalidEmail
  | accountUpdateFailed
  | hasDependents
  | accountDeleteFailed
  | groupMissing
  | groupDeleteFailed
  | cariIdRequired
  | badDateFormat
  | badDueDateFormat
  | badPaymentMethod
  | badStatus
  | amountTooBig
  | descriptionTooLong
  | referenceTooLong
deriving DecidableEq, Repr

/-- Result envelope: `success:true` with a payload, or `success:false` with an
error; mirrors the `{success, data?, error?}` objects of the models. -/
inductive Res (α : Type) where
  | ok (a : α)
  | err (e : ApiError)
deriving DecidableEq, Repr

/-- Row of the `accounts` table. -/
structure Account where
  id : Nat
  account_name : String
  account_code : Option String
  group_id : Option Nat
  phone : Option String
  email : Option String
  address : Option String
  tax_number : Option String
  tax_office : Option String
  balance : Int
  account_type : String
  is_active : Bool
deriving DecidableEq, Repr

/-- Row of the `transactions` table. -/
structure Txn where
  id : Nat
  account_id : Nat
  ttype : TType
  amount : Int
  description : Option String
  reference_number : Option String
  transaction_date : String
  due_date : Option String
  payment_method : String
  status : String
  is_active : Bool
deriving DecidableEq, Repr

/-- Row of the `account_groups` table. -/
structure AGroup where
  id : Nat
  group_name : String
deriving DecidableEq, Repr

/-- Database state.  `invoices` and `payments` hold the `customer_id` /
`account_id` values of the rows of the two extra tables that
`Accounts.deleteAccount` queries (the repository itself never defines or writes
those tables; they are modelled as storage-provided lists of linked ids, per the
storage assumption of the spec).  `nextTxnId` models the `AUTO_INCREMENT` counter of
the `transactions` table. -/
structure DB where
  groups : List AGroup
  accounts : List Account
  transactions : List Txn
  invoices : List Nat
  payments : List Nat
  nextTxnId : Nat
deriving DecidableEq, Repr

/-- JavaScript truthiness of a nullable string (`null`, `undefined` and `""`
are falsy). -/
def truthy (o : Option String) : Bool :=
  match o with
  | none => false
  | some s => !(s == "")

/-- JavaScript `x || null` on a nullable string (turns `""` into `null`). -/
def jsOrNull (o : Option String) : Option String :=
  match o with
  | none => none
  | some s => if s == "" then none else some s

/-- JavaScript `x || d` on a nullable string. -/
def jsOr (o : Option String) (d : String) : String :=
  match o with
  | none => d
  | some s => if s == "" then d else s

/-- JavaScript truthiness of a nullable numeric id (`0` is falsy). -/
def natTruthy (o : Option Nat) : Bool :=
  match o with
  | none => false
  | some n => !(n == 0)

/-- JavaScript truthiness of a nullable amount (`0` is falsy). -/
def intTruthy (o : Option Int) : Bool :=
  match o with
  | none => false
  | some q => !(q == 0)

/-- JavaScript `String.prototype.trim`. -/
def jsTrim (s : String) : String :=
  String.mk (((s.data.dropWhile Char.isWhitespace).reverse.dropWhile
    Char.isWhitespace).reverse)

/-- Balance delta of `Transactions.updateAccountBalance`: the nested
`operation` / `transactionType` if-chains computing `balanceChange`. -/
def balanceChange (transactionType : TType) (amount : Int) (operation : BalanceOp) : Int :=
  match operation with
  | .add =>
    match transactionType with
    | .income | .receivable => amount
    | .expense | .payable => -amount
  | .subtract =>
    match transactionType with
    | .income | .receivable => -amount
    | .expense | .payable => amount

/-- Embedding of `Transactions.updateAccountBalance`: the single SQL statement
`UPDATE accounts SET balance = balance + ? WHERE id = ?` (no `is_active`
filter). -/
def updateAccountBalance (db : DB) (accountId : Nat) (transactionType : TType)
    (amount : Int) (operation : BalanceOp) : DB :=
  { db with accounts := db.accounts.map (fun a =>
      if a.id == accountId then
        { a with balance := a.balance + balanceChange transactionType amount operation }
      else a) }

/-- Embedding of `Transactions.getTransactionById`:
`SELECT ... WHERE t.id = ? AND t.is_active = 1`, first row or not-found. -/
def getTransactionById (db : DB) (id : Nat) : Option Txn :=
  (db.transactions.filter (fun t => t.id == id && t.is_active)).head?

/-- Check `SELECT id FROM accounts WHERE id = ? AND is_active = 1` is
nonempty. -/
def accountActiveExists (db : DB) (accountId : Nat) : Bool :=
  db.accounts.any (fun a => a.id == accountId && a.is_active)

/-- Check `SELECT id FROM transactions WHERE reference_number = ? AND
is_active = 1` is nonempty. -/
def refTakenActive (db : DB) (r : String) : Bool :=
  db.transactions.any (fun t => t.reference_number == some r && t.is_active)

/-- Check `SELECT id FROM transactions WHERE reference_number = ? AND id != ?
AND is_active = 1` is nonempty. -/
def refTakenOther (db : DB) (r : String) (id : Nat) : Bool :=
  db.transactions.any (fun t =>
    t.reference_number == some r && !(t.id == id) && t.is_active)

/-- Input object of `Transactions.createTransaction` /
`Transactions.updateTransaction` (after the controller built it).
`account_id = 0` stands for an absent / falsy id. -/
structure TxnData where
  account_id : Nat
  transaction_type : TType
  amount : Int
  description : Option String
  reference_number : Option String
  transaction_date : String
  due_date : Option String
  payment_method : Option String
  status : Option String
deriving DecidableEq, Repr

/-- Embedding of `Transactions.createTransaction`.  Validation order follows
the source: required account id, type (always valid for the enumerated
`TType`), positive amount, transaction date, active account existence,
reference-number uniqueness; then `INSERT` and the balance adjustment.  The
returned payload is the `insertId`. -/
def createTransaction (db : DB) (d : TxnData) : DB × Res Nat :=
  if d.account_id == 0 then (db, .err .accountIdRequired)
  else if d.amount ≤ 0 then (db, .err .invalidAmount)
  else if d.transaction_date == "" then (db, .err .dateRequired)
  else if !(accountActiveExists db d.account_id) then (db, .err .accountNotFound)
  else if truthy d.reference_number &&
      refTakenActive db (d.reference_number.getD "") then
    (db, .err .duplicateReference)
  else
    let newTxn : Txn :=
      { id := db.nextTxnId
        account_id := d.account_id
        ttype := d.transaction_type
        amount := d.amount
        description := d.description
        reference_number := d.reference_number
        transaction_date := d.transaction_date
        due_date := d.due_date
        payment_method := (d.payment_method.getD "cash")
        status := (d.status.getD "completed")
        is_active := true }
    let db1 := { db with
      transactions := db.transactions ++ [newTxn]
      nextTxnId := db.nextTxnId + 1 }
    let db2 := updateAccountBalance db1 d.account_id d.transaction_type d.amount .add
    (db2, .ok db.nextTxnId)

/-- Field replacement performed by the `UPDATE transactions SET ...` statement
of `Transactions.updateTransaction` (`id`, `is_active`, `created_at` are not in
the SET list; `payment_method` / `status` fall back to the values of the old row via
`||`). -/
def applyTxnData (t old : Txn) (d : TxnData) : Txn :=
  { t with
    account_id := d.account_id
    ttype := d.transaction_type
    amount := d.amount
    description := jsOrNull d.description
    reference_number := jsOrNull d.reference_number
    transaction_date := d.transaction_date
    due_date := jsOrNull d.due_date
    payment_method := jsOr d.payment_method old.payment_method
    status := jsOr d.status old.status }

/-- Embedding of `Transactions.updateTransaction`: load the old movement,
validate, reverse the old balance contribution on the old account, rewrite the
movement row (`WHERE id = ? AND is_active = 1`), then apply the new
contribution on the new account. -/
def updateTransaction (db : DB) (id : Nat) (d : TxnData) : DB × Res Unit :=
  match getTransactionById db id with
  | none => (db, .err .notFound)
  | some old =>
    if d.account_id == 0 then (db, .err .accountIdRequired)
    else if d.amount ≤ 0 then (db, .err .invalidAmount)
    else if !(accountActiveExists db d.account_id) then (db, .err .accountNotFound)
    else if truthy d.reference_number &&
        refTakenOther db (d.reference_number.getD "") id then
      (db, .err .duplicateReference)
    else
      let db1 := updateAccountBalance db old.account_id old.ttype old.amount .subtract
      let affected := db1.transactions.countP (fun t => t.id == id && t.is_active)
      let db2 := { db1 with transactions := db1.transactions.map (fun t =>
          if t.id == id && t.is_active then applyTxnData t old d else t) }
      if affected == 0 then (db2, .err .updateFailed)
      else
        let db3 := updateAccountBalance db2 d.account_id d.transaction_type d.amount .add
        (db3, .ok ())

/-- Embedding of `Transactions.deleteTransaction`: load, soft-delete the row
(`UPDATE transactions SET is_active = 0 WHERE id = ?`, no `is_active` filter),
then reverse the balance contribution. -/
def deleteTransaction (db : DB) (id : Nat) : DB × Res Unit :=
  match getTransactionById db id with
  | none => (db, .err .notFound)
  | some t =>
    let affected := db.transactions.countP (fun s => s.id == id)
    let db1 := { db with transactions := db.transactions.map (fun s =>
        if s.id == id then { s with is_active := false } else s) }
    if affected == 0 then (db1, .err .deleteFailed)
    else
      let db2 := updateAccountBalance db1 t.account_id t.ttype t.amount .subtract
      (db2, .ok ())

/-- Embedding of `Accounts.getAccountById`:
`SELECT ... WHERE a.id = ? AND a.is_active = 1`, first row or not-found. -/
def getAccountById (db : DB) (id : Nat) : Option Account :=
  (db.accounts.filter (fun a => a.id == id && a.is_active)).head?

/-- Check `SELECT id FROM account_groups WHERE id = ?` is nonempty. -/
def groupExists (db : DB) (g : Nat) : Bool :=
  db.groups.any (fun gr => gr.id == g)

/-- Check `SELECT id FROM accounts WHERE account_code = ? AND id != ? AND
is_active = 1` is nonempty. -/
def codeTakenOther (db : DB) (c : String) (id : Nat) : Bool :=
  db.accounts.any (fun a =>
    a.account_code == some c && !(a.id == id) && a.is_active)

/-- Check `SELECT id FROM accounts WHERE account_name = ? AND id != ? AND
is_active = 1` is nonempty. -/
def nameTakenOther (db : DB) (n : String) (id : Nat) : Bool :=
  db.accounts.any (fun a =>
    a.account_name == n && !(a.id == id) && a.is_active)

/-- Split a character list at a separator character (used to embed the email
regular expression). -/
def splitAtChar (c : Char) (l : List Char) : List (List Char) :=
  match l with
  | [] => [[]]
  | a :: rest =>
    let r := splitAtChar c rest
    if a == c then [] :: r
    else
      match r with
      | [] => [[a]]
      | h :: t => (a :: h) :: t

/-- Embedding of the email regular expression of `Accounts.updateAccount`,
`/^[^\s@]+@[^\s@]+\.[^\s@]+$/`: exactly one `@`, nonempty whitespace-free local
and domain parts, and a dot inside the domain part with at least one character
on each side. -/
def emailOk (s : String) : Bool :=
  match splitAtChar '@' s.data with
  | [l, d] =>
    !(l.isEmpty) && !(d.isEmpty) &&
    l.all (fun c => !c.isWhitespace) && d.all (fun c => !c.isWhitespace) &&
    (List.range d.length).any (fun i => d.getD i ' ' == '.' && 1 ≤ i && i + 1 < d.length)
  | _ => false

/-- Condition under which the email validation of `Accounts.updateAccount`
fails: `email && email.trim() !== ''` and the trimmed value misses the
pattern. -/
def emailBad (o : Option String) : Bool :=
  match o with
  | none => false
  | some e => !(e == "") && !(jsTrim e == "") && !(emailOk (jsTrim e))

/-- Input object of `Accounts.updateAccount` (after the controller built it).
`balance = none` models `undefined` (`parseFloat(undefined)` is `NaN`, which is
falsy). -/
structure AccountData where
  account_name : String
  account_code : Option String
  group_id : Option Nat
  phone : Option String
  email : Option String
  address : Option String
  tax_number : Option String
  tax_office : Option String
  balance : Option Int
  account_type : Option String
deriving DecidableEq, Repr

/-- Embedding of `Accounts.updateAccount`.  The stored balance is
`parseFloat(balance) || existingAccount.data.balance`: an absent, `NaN` or `0`
balance falls back to the previously stored value. -/
def updateAccount (db : DB) (id : Nat) (d : AccountData) : DB × Res Unit :=
  match getAccountById db id with
  | none => (db, .err .accountMissing)
  | some acc =>
    if jsTrim d.account_name == "" then (db, .err .nameRequired)
    else if truthy d.account_code &&
        codeTakenOther db (d.account_code.getD "") id then
      (db, .err .duplicateCode)
    else if nameTakenOther db (jsTrim d.account_name) id then (db, .err .duplicateName)
    else if natTruthy d.group_id && !(groupExists db (d.group_id.getD 0)) then
      (db, .err .groupRefMissing)
    else if emailBad d.email then (db, .err .invalidEmail)
    else
      let affected := db.accounts.countP (fun a => a.id == id && a.is_active)
      let newBalance :=
        match d.balance with
        | some b => if b == 0 then acc.balance else b
        | none => acc.balance
      let db1 := { db with accounts := db.accounts.map (fun a =>
        if a.id == id && a.is_active then
          { a with
            account_name := jsTrim d.account_name
            account_code := jsOrNull d.account_code
            group_id := if natTruthy d.group_id then d.group_id else none
            phone := jsOrNull d.phone
            email := match d.email with
              | some e => if e == "" then none else some (jsTrim e)
              | none => none
            address := jsOrNull d.address
            tax_number := jsOrNull d.tax_number
            tax_office := jsOrNull d.tax_office
            balance := newBalance
            account_type := jsOr d.account_type acc.account_type }
        else a) }
      if affected == 0 then (db1, .err .accountUpdateFailed)
      else (db1, .ok ())

/-- Embedding of `Accounts.deleteAccount`: the dependent-record guard counts
rows of `invoices` (by `customer_id`) and `payments` (by `account_id`) — not
rows of `transactions` — then soft-deletes
(`UPDATE accounts SET is_active = 0 WHERE id = ?`). -/
def deleteAccount (db : DB) (id : Nat) : DB × Res Unit :=
  match getAccountById db id with
  | none => (db, .err .accountMissing)
  | some _ =>
    let linkedCount := (db.invoices.filter (fun c => c == id)).length +
      (db.payments.filter (fun c => c == id)).length
    if 0 < linkedCount then (db, .err .hasDependents)
    else
      let affected := db.accounts.countP (fun a => a.id == id)
      let db1 := { db with accounts := db.accounts.map (fun a =>
          if a.id == id then { a with is_active := false } else a) }
      if affected == 0 then (db1, .err .accountDeleteFailed)
      else (db1, .ok ())

/-- Embedding of `AccountGroups.deleteGroup`: the guard counts every row of
`accounts` with `group_id = ?` (active or soft-deleted alike), then performs a
hard `DELETE FROM account_groups WHERE id = ?`. -/
def deleteGroup (db : DB) (id : Nat) : DB × Res Unit :=
  match (db.groups.filter (fun g => g.id == id)).head? with
  | none => (db, .err .groupMissing)
  | some _ =>
    let linkedAccounts := db.accounts.countP (fun a => a.group_id == some id)
    if 0 < linkedAccounts then (db, .err .hasDependents)
    else
      let affected := db.groups.countP (fun g => g.id == id)
      let db1 := { db with groups := db.groups.filter (fun g => !(g.id == id)) }
      if affected == 0 then (db1, .err .groupDeleteFailed)
      else (db1, .ok ())

/-- Embedding of the `^\d{4}-\d{2}-\d{2}$` date regular expression of
`transactionController`. -/
def isDateFormat (s : String) : Bool :=
  let cs := s.data
  cs.length == 10 && (List.range 10).all (fun i =>
    if i == 4 || i == 7 then cs.getD i ' ' == '-' else (cs.getD i ' ').isDigit)

/-- Parse of the `islem_tipi` string against the enumerated transaction
types. -/
def toTType (s : String) : Option TType :=
  if s == "income" then some .income
  else if s == "expense" then some .expense
  else if s == "receivable" then some .receivable
  else if s == "payable" then some .payable
  else none

/-- Membership of `odeme_yontemi` in `cash / bank_transfer / check /
credit_card`. -/
def paymentMethodOk (s : String) : Bool :=
  s == "cash" || s == "bank_transfer" || s == "check" || s == "credit_card"

/-- Membership of `durum` / `status` in `completed / pending / cancelled`. -/
def statusOk (s : String) : Bool :=
  s == "completed" || s == "pending" || s == "cancelled"

/-- Upper bound `999999999.99` of the amount check in the controller, in hundredths
of the currency unit. -/
def maxAmount : Int := 99999999999

/-- Request body of `POST /api/transactions` as read by
`transactionController.createTransaction`.  `cari_id = 0` models an absent,
non-numeric or zero id (all rejected by `!cari_id || isNaN(cari_id)`);
`tutar = none` models an absent or non-numeric amount. -/
structure HttpCreateReq where
  cari_id : Nat
  islem_tipi : Option String
  tutar : Option Int
  islem_tarihi : Option String
  aciklama : Option String
  referans_no : Option String
  vade_tarihi : Option String
  odeme_yontemi : Option String
  durum : Option String
deriving DecidableEq, Repr

/-- Embedding of `transactionController.createTransaction`: the controller
validation chain (required fields, date formats, payment-method and status
enumerations, the `999999999.99` amount cap, length bounds), then the call into
`Transactions.createTransaction`. -/
def httpCreateTransaction (db : DB) (r : HttpCreateReq) : DB × Res Nat :=
  if r.cari_id == 0 then (db, .err .cariIdRequired)
  else
    match (match r.islem_tipi with | some s => toTType s | none => none) with
    | none => (db, .err .invalidType)
    | some tt =>
      match r.tutar with
      | none => (db, .err .invalidAmount)
      | some q =>
        if q ≤ 0 then (db, .err .invalidAmount)
        else
          match r.islem_tarihi with
          | none => (db, .err .dateRequired)
          | some dt =>
            if dt == "" then (db, .err .dateRequired)
            else if !(isDateFormat dt) then (db, .err .badDateFormat)
            else if truthy r.vade_tarihi && !(isDateFormat (r.vade_tarihi.getD "")) then
              (db, .err .badDueDateFormat)
            else if truthy r.odeme_yontemi && !(paymentMethodOk (r.odeme_yontemi.getD "")) then
              (db, .err .badPaymentMethod)
            else if truthy r.durum && !(statusOk (r.durum.getD "")) then
              (db, .err .badStatus)
            else if maxAmount < q then (db, .err .amountTooBig)
            else if truthy r.aciklama && 1000 < (r.aciklama.getD "").length then
              (db, .err .descriptionTooLong)
            else if truthy r.referans_no && 100 < (r.referans_no.getD "").length then
              (db, .err .referenceTooLong)
            else
              createTransaction db
                { account_id := r.cari_id
                  transaction_type := tt
                  amount := q
                  description := jsOrNull r.aciklama
                  reference_number := jsOrNull r.referans_no
                  transaction_date := dt
                  due_date := jsOrNull r.vade_tarihi
                  payment_method := some (jsOr r.odeme_yontemi "cash")
                  status := some (jsOr r.durum "completed") }

/-- Controller-level validation errors of `httpCreateTransaction` (every error
produced before the model is called). -/
def isValidationError (e : ApiError) : Bool :=
  match e with
  | .cariIdRequired | .invalidType | .invalidAmount | .dateRequired
  | .badDateFormat | .badDueDateFormat | .badPaymentMethod | .badStatus
  | .amountTooBig | .descriptionTooLong | .referenceTooLong => true
  | _ => false

/-- Positional SQL parameter as pushed into the `params` array of
`Transactions.getFilteredTransactions`. -/
inductive SqlParam where
  | pNat (n : Nat)
  | pInt (q : Int)
  | pStr (s : String)
deriving DecidableEq, Repr

/-- Filter object passed to `Transactions.getFilteredTransactions` (the
controller passes numbers already parsed; `none` models an absent field and
falsy values follow JavaScript truthiness). -/
structure Filters where
  cari_id : Option Nat
  islem_tipi : Option String
  min_tutar : Option Int
  max_tutar : Option Int
  baslangic_tarihi : Option String
  bitis_tarihi : Option String
  aciklama_icinde : Option String
  status : Option String
  payment_method : Option String
  limit : Option Nat
  offset : Option Nat
deriving DecidableEq, Repr

/-- Guard of the type-filter condition: `filters.islem_tipi &&
[...].includes(filters.islem_tipi)`. -/
def tipiCond (f : Filters) : Bool :=
  match f.islem_tipi with
  | some s => (toTType s).isSome
  | none => false

/-- Guard of the text-search condition: `filters.aciklama_icinde &&
filters.aciklama_icinde.trim() !== ''`. -/
def aciklamaCond (f : Filters) : Bool :=
  truthy f.aciklama_icinde && !(jsTrim (f.aciklama_icinde.getD "") == "")

/-- Guard of the status condition: `filters.status &&
[...].includes(filters.status)`. -/
def statusCond (f : Filters) : Bool :=
  truthy f.status && statusOk (f.status.getD "")

/-- The `conditions` array built by `Transactions.getFilteredTransactions`,
one SQL fragment per active filter. -/
def conditionList (f : Filters) : List String :=
  (if natTruthy f.cari_id then ["t.account_id = ?"] else []) ++
  (if tipiCond f then ["t.transaction_type = ?"] else []) ++
  (if intTruthy f.min_tutar then ["t.amount >= ?"] else []) ++
  (if intTruthy f.max_tutar then ["t.amount <= ?"] else []) ++
  (if truthy f.baslangic_tarihi then ["t.transaction_date >= ?"] else []) ++
  (if truthy f.bitis_tarihi then ["t.transaction_date <= ?"] else []) ++
  (if aciklamaCond f then ["(t.description LIKE ? OR t.reference_number LIKE ?)"] else []) ++
  (if statusCond f then ["t.status = ?"] else []) ++
  (if truthy f.payment_method then ["t.payment_method = ?"] else [])

/-- The parameters pushed alongside `conditionList` (the text search pushes the
same `%term%` pattern twice). -/
def conditionParams (f : Filters) : List SqlParam :=
  (if natTruthy f.cari_id then [.pNat (f.cari_id.getD 0)] else []) ++
  (if tipiCond f then [.pStr (f.islem_tipi.getD "")] else []) ++
  (if intTruthy f.min_tutar then [.pInt (f.min_tutar.getD 0)] else []) ++
  (if intTruthy f.max_tutar then [.pInt (f.max_tutar.getD 0)] else []) ++
  (if truthy f.baslangic_tarihi then [.pStr (f.baslangic_tarihi.getD "")] else []) ++
  (if truthy f.bitis_tarihi then [.pStr (f.bitis_tarihi.getD "")] else []) ++
  (if aciklamaCond f then
    [.pStr ("%" ++ jsTrim (f.aciklama_icinde.getD "") ++ "%"),
     .pStr ("%" ++ jsTrim (f.aciklama_icinde.getD "") ++ "%")] else []) ++
  (if statusCond f then [.pStr (f.status.getD "")] else []) ++
  (if truthy f.payment_method then [.pStr (f.payment_method.getD "")] else [])

/-- The full `params` array after the pagination section appended `LIMIT` (and,
only when a limit is present, `OFFSET`) values. -/
def pagedParams (f : Filters) : List SqlParam :=
  conditionParams f ++
  (if natTruthy f.limit then
    [SqlParam.pNat (f.limit.getD 0)] ++
      (if natTruthy f.offset then [SqlParam.pNat (f.offset.getD 0)] else [])
  else [])

/-- The `countParams` slice computed for the total-count query:
`params.slice(0, conditions.length * (filters.aciklama_icinde ? 2 : 1))`. -/
def countParams (f : Filters) : List SqlParam :=
  (pagedParams f).take
    ((conditionList f).length * (if truthy f.aciklama_icinde then 2 else 1))

/-- Directional sign of a transaction type: `+1` for `income` / `receivable`,
`-1` for `expense` / `payable` (spec section 4.3). -/
def direction : TType → Int
  | .income => 1
  | .receivable => 1
  | .expense => -1
  | .payable => -1

/-- Signed contribution of a movement row to the balance of account `accId`:
`direction(type) * amount` when the row is active and references the account,
`0` otherwise. -/
def activeContrib (accId : Nat) (t : Txn) : Int :=
  if t.account_id == accId && t.is_active then direction t.ttype * t.amount else 0

/-- Signed sum of the active movements referencing account `accId`. -/
def signedSum (txns : List Txn) (accId : Nat) : Int :=
  (txns.map (activeContrib accId)).sum

/-- Balance reconciliation invariant: every account row stores exactly the
signed sum of the active movements that reference it. -/
def balanced (db : DB) : Prop :=
  ∀ a ∈ db.accounts, a.balance = signedSum db.transactions a.id

/-- Well-formedness provided by the storage engine: movement ids are a primary
key (no duplicates) and the auto-increment counter is fresh. -/
def WF (db : DB) : Prop :=
  (db.transactions.map Txn.id).Nodup ∧ ∀ t ∈ db.transactions, t.id < db.nextTxnId

/-- Stored balance of the account row with id `accId` (`0` when no row
exists). -/
def balanceOf (db : DB) (accId : Nat) : Int :=
  match db.accounts.find? (fun a => a.id == accId) with
  | some a => a.balance
  | none => 0

/-- Whether an account row with id `accId` exists (active or not). -/
def accountRow (db : DB) (accId : Nat) : Bool :=
  (db.accounts.find? (fun a => a.id == accId)).isSome

/-- A completed Movement Ledger operation: create, update or delete of a
movement. -/
inductive LedgerOp where
  | create (d : TxnData)
  | update (id : Nat) (d : TxnData)
  | del (id : Nat)

/-- Database state after a single Movement Ledger operation completes
(successfully or with an error response). -/
def applyOp (db : DB) : LedgerOp → DB
  | .create d => (createTransaction db d).1
  | .update id d => (updateTransaction db id d).1
  | .del id => (deleteTransaction db id).1

/-- Database state after a sequence of Movement Ledger operations completes. -/
def applyOps (db : DB) (ops : List LedgerOp) : DB :=
  ops.foldl applyOp db

theorem balanceChange_add (ty : TType) (q : Int) :
    balanceChange ty q .add = direction ty * q := by
  cases ty <;> simp [balanceChange, direction]

theorem balanceChange_subtract (ty : TType) (q : Int) :
    balanceChange ty q .subtract = -(direction ty * q) := by
  cases ty <;> simp [balanceChange, direction]

theorem updateAccountBalance_transactions (db : DB) (i : Nat) (ty : TType)
    (q : Int) (op : BalanceOp) :
    (updateAccountBalance db i ty q op).transactions = db.transactions := rfl

theorem map_id_on {α : Type} (g : α → α) :
    ∀ (l : List α), (∀ t ∈ l, g t = t) → l.map g = l
  | [], _ => rfl
  | a :: l, h => by
    rw [List.map_cons, h a (List.mem_cons_self a l),
      map_id_on g l (fun t ht => h t (List.mem_cons_of_mem a ht))]

theorem signedSum_cons (t : Txn) (l : List Txn) (j : Nat) :
    signedSum (t :: l) j = activeContrib j t + signedSum l j := by
  simp [signedSum]

theorem signedSum_append_single (l : List Txn) (t : Txn) (j : Nat) :
    signedSum (l ++ [t]) j = signedSum l j + activeContrib j t := by
  simp [signedSum]

theorem signedSum_map_single (g : Txn → Txn) (i j : Nat) :
    ∀ (l : List Txn), (l.map Txn.id).Nodup → ∀ t0 ∈ l, t0.id = i →
      (∀ t : Txn, t.id ≠ i → g t = t) →
      signedSum (l.map g) j
        = signedSum l j - activeContrib j t0 + activeContrib j (g t0) := by
  intro l
  induction l with
  | nil => intro _ t0 h0; exact absurd h0 (List.not_mem_nil t0)
  | cons a l ih =>
    intro hnd t0 ht0 hid hg
    rw [List.map_cons, List.nodup_cons] at hnd
    obtain ⟨ha, hnd'⟩ := hnd
    rcases List.mem_cons.mp ht0 with h | h
    · subst h
      have hgl : ∀ t ∈ l, g t = t := by
        intro t ht
        apply hg
        intro hti
        exact ha (by
          rw [← hid] at hti
          exact hti ▸ List.mem_map_of_mem Txn.id ht)
      rw [List.map_cons, map_id_on g l hgl, signedSum_cons, signedSum_cons]
      ring
    · have hai : a.id ≠ i := by
        intro hai
        exact ha (by
          rw [hai, ← hid]
          exact List.mem_map_of_mem Txn.id h)
      rw [List.map_cons, hg a hai, signedSum_cons, signedSum_cons,
        ih hnd' t0 h hid hg]
      ring

theorem getTransactionById_spec {db : DB} {id : Nat} {t : Txn}
    (h : getTransactionById db id = some t) :
    t ∈ db.transactions ∧ t.id = id ∧ t.is_active = true := by
  unfold getTransactionById at h
  have hmem : t ∈ db.transactions.filter (fun s => s.id == id && s.is_active) :=
    List.mem_of_mem_head? (by simp [h])
  have hp := List.mem_filter.mp hmem
  have hp2 := hp.2
  simp only [Bool.and_eq_true, beq_iff_eq] at hp2
  exact ⟨hp.1, hp2.1, hp2.2⟩

theorem getAccountById_spec {db : DB} {id : Nat} {a : Account}
    (h : getAccountById db id = some a) :
    a ∈ db.accounts ∧ a.id = id ∧ a.is_active = true := by
  unfold getAccountById at h
  have hmem : a ∈ db.accounts.filter (fun x => x.id == id && x.is_active) :=
    List.mem_of_mem_head? (by simp [h])
  have hp := List.mem_filter.mp hmem
  have hp2 := hp.2
  simp only [Bool.and_eq_true, beq_iff_eq] at hp2
  exact ⟨hp.1, hp2.1, hp2.2⟩

theorem balanceOf_updateAccountBalance (db : DB) (i j : Nat) (ty : TType)
    (q : Int) (op : BalanceOp) (hj : accountRow db j = true) :
    balanceOf (updateAccountBalance db i ty q op) j
      = balanceOf db j + (if j == i then balanceChange ty q op else 0) := by
  obtain ⟨a, ha⟩ : ∃ a, db.accounts.find? (fun x => x.id == j) = some a :=
    Option.isSome_iff_exists.mp hj
  have haj := List.find?_some ha
  have haj' : a.id = j := by simpa using haj
  have hcomp : ((fun x : Account => x.id == j) ∘ (fun a : Account =>
      if a.id == i then { a with balance := a.balance + balanceChange ty q op } else a))
      = fun x : Account => x.id == j := by
    funext x
    by_cases h : (x.id == i) = true <;> simp [Function.comp, h]
  unfold balanceOf updateAccountBalance
  rw [List.find?_map, hcomp, ha]
  simp only [Option.map_some']
  by_cases h : (a.id == i) = true
  · have : (j == i) = true := by rw [← haj']; exact h
    simp [h, this]
  · have : (j == i) = false := by
      rw [← haj']
      exact Bool.not_eq_true _ ▸ (by simpa using h)
    simp [h, this]

theorem accountRow_updateAccountBalance (db : DB) (i j : Nat) (ty : TType)
    (q : Int) (op : BalanceOp) :
    accountRow (updateAccountBalance db i ty q op) j = accountRow db j := by
  have hcomp : ((fun x : Account => x.id == j) ∘ (fun a : Account =>
      if a.id == i then { a with balance := a.balance + balanceChange ty q op } else a))
      = fun x : Account => x.id == j := by
    funext x
    by_cases h : (x.id == i) = true <;> simp [Function.comp, h]
  unfold accountRow updateAccountBalance
  rw [List.find?_map, hcomp]
  cases db.accounts.find? (fun x => x.id == j) <;> simp

theorem balanced_insert_bump (db : DB) (t : Txn) (ht : t.is_active = true)
    (hb : balanced db) :
    balanced (updateAccountBalance
      { db with transactions := db.transactions ++ [t], nextTxnId := db.nextTxnId + 1 }
      t.account_id t.ttype t.amount .add) := by
  intro x hx
  obtain ⟨a, ha, rfl⟩ := List.mem_map.mp hx
  have hbal := hb a ha
  have hshape : (updateAccountBalance
      { db with transactions := db.transactions ++ [t], nextTxnId := db.nextTxnId + 1 }
      t.account_id t.ttype t.amount .add).transactions = db.transactions ++ [t] := rfl
  rw [hshape]
  by_cases h : (a.id == t.account_id) = true
  · have heq : a.id = t.account_id := by simpa using h
    rw [if_pos h]
    show a.balance + balanceChange t.ttype t.amount .add
      = signedSum (db.transactions ++ [t]) a.id
    rw [signedSum_append_single, ← hbal, balanceChange_add]
    simp [activeContrib, heq, ht]
  · have heq : ¬ (t.account_id == a.id) = true := by
      simp only [beq_iff_eq] at h ⊢
      exact fun hc => h hc.symm
    rw [if_neg h]
    show a.balance = signedSum (db.transactions ++ [t]) a.id
    rw [signedSum_append_single, ← hbal]
    simp [activeContrib, heq]

theorem balanced_createTransaction (db : DB) (d : TxnData) (hb : balanced db) :
    balanced (createTransaction db d).1 := by
  unfold createTransaction
  split
  · exact hb
  split
  · exact hb
  split
  · exact hb
  split
  · exact hb
  split
  · exact hb
  exact balanced_insert_bump db
    { id := db.nextTxnId
      account_id := d.account_id
      ttype := d.transaction_type
      amount := d.amount
      description := d.description
      reference_number := d.reference_number
      transaction_date := d.transaction_date
      due_date := d.due_date
      payment_method := (d.payment_method.getD "cash")
      status := (d.status.getD "completed")
      is_active := true } rfl hb

theorem WF_createTransaction (db : DB) (d : TxnData) (hwf : WF db) :
    WF (createTransaction db d).1 := by
  obtain ⟨hnd, hlt⟩ := hwf
  unfold createTransaction
  split
  · exact ⟨hnd, hlt⟩
  split
  · exact ⟨hnd, hlt⟩
  split
  · exact ⟨hnd, hlt⟩
  split
  · exact ⟨hnd, hlt⟩
  split
  · exact ⟨hnd, hlt⟩
  constructor
  · show (List.map Txn.id (db.transactions ++ [_])).Nodup
    rw [List.map_append]
    simp only [List.map_cons, List.map_nil]
    rw [List.nodup_append]
    refine ⟨hnd, List.nodup_singleton _, ?_⟩
    intro x hx
    simp only [List.mem_singleton]
    intro hx1
    obtain ⟨t, ht, hteq⟩ := List.mem_map.mp hx
    have := hlt t ht
    omega
  · intro t ht
    show t.id < db.nextTxnId + 1
    rcases List.mem_append.mp ht with h | h
    · exact Nat.lt_succ_of_lt (hlt t h)
    · have : t.id = db.nextTxnId := by
        rcases List.mem_singleton.mp h with rfl
        rfl
      omega

theorem countP_active_pos {db : DB} {id : Nat} {old : Txn}
    (hold : getTransactionById db id = some old) :
    (db.transactions.countP (fun t => t.id == id && t.is_active) == 0) = false := by
  obtain ⟨hmem, hid, hact⟩ := getTransactionById_spec hold
  have hpos : 0 < db.transactions.countP (fun t => t.id == id && t.is_active) :=
    List.countP_pos_iff.mpr ⟨old, hmem, by simp [hid, hact]⟩
  simpa using Nat.pos_iff_ne_zero.mp hpos

theorem updateTransaction_eq (db : DB) (id : Nat) (d : TxnData) (old : Txn)
    (hold : getTransactionById db id = some old)
    (h1 : (d.account_id == 0) = false)
    (h2 : ¬ d.amount ≤ 0)
    (h3 : accountActiveExists db d.account_id = true)
    (h4 : (truthy d.reference_number &&
      refTakenOther db (d.reference_number.getD "") id) = false) :
    updateTransaction db id d =
      (updateAccountBalance
        { updateAccountBalance db old.account_id old.ttype old.amount .subtract with
          transactions := db.transactions.map (fun t =>
            if t.id == id && t.is_active then applyTxnData t old d else t) }
        d.account_id d.transaction_type d.amount .add, .ok ()) := by
  have h5 := countP_active_pos hold
  simp only [updateTransaction, hold, h1, h2, h3, h4, updateAccountBalance_transactions, h5,
    Bool.not_true, Bool.false_eq_true, if_false, ite_false]

theorem balanced_state_update (db : DB) (old : Txn) (d : TxnData) (id : Nat)
    (hnd : (db.transactions.map Txn.id).Nodup)
    (hmem : old ∈ db.transactions) (hid : old.id = id) (hact : old.is_active = true)
    (hb : balanced db) :
    balanced (updateAccountBalance
      { updateAccountBalance db old.account_id old.ttype old.amount .subtract with
        transactions := db.transactions.map (fun t =>
          if t.id == id && t.is_active then applyTxnData t old d else t) }
      d.account_id d.transaction_type d.amount .add) := by
  intro x hx
  have hx' : x ∈ (db.accounts.map (fun a =>
      if a.id == old.account_id then
        { a with balance := a.balance + balanceChange old.ttype old.amount .subtract }
      else a)).map (fun b =>
      if b.id == d.account_id then
        { b with balance := b.balance + balanceChange d.transaction_type d.amount .add }
      else b) := hx
  obtain ⟨y, hy, rfl⟩ := List.mem_map.mp hx'
  obtain ⟨a, ha, rfl⟩ := List.mem_map.mp hy
  have hbal := hb a ha
  have hgid : ∀ t : Txn, t.id ≠ id →
      (if t.id == id && t.is_active then applyTxnData t old d else t) = t := by
    intro t ht
    simp [show (t.id == id) = false from by simpa using ht]
  have hsum := signedSum_map_single
    (fun t => if t.id == id && t.is_active then applyTxnData t old d else t)
    id a.id db.transactions hnd old hmem hid hgid
  have hbold : (old.id == id) = true := by simp [hid]
  simp only [hbold, hact, Bool.and_self, if_true] at hsum
  have hnewContrib : activeContrib a.id (applyTxnData old old d)
      = if d.account_id == a.id then direction d.transaction_type * d.amount else 0 := by
    simp [activeContrib, applyTxnData, hact]
  have holdContrib : activeContrib a.id old
      = if old.account_id == a.id then direction old.ttype * old.amount else 0 := by
    simp [activeContrib, hact]
  show _ = signedSum (db.transactions.map (fun t =>
      if t.id == id && t.is_active then applyTxnData t old d else t)) _
  by_cases hX : (a.id == old.account_id) = true
  · have hX' : old.account_id = a.id := (by simpa using hX : a.id = old.account_id).symm
    by_cases hY : (a.id == d.account_id) = true
    · have hY' : d.account_id = a.id := (by simpa using hY : a.id = d.account_id).symm
      simp only [hX, hY, if_true]
      rw [hsum, holdContrib, hnewContrib, ← hbal, balanceChange_subtract, balanceChange_add]
      simp only [hX', hY', beq_self_eq_true, if_true]
      ring
    · have hyne : a.id ≠ d.account_id := by simpa using hY
      have hY' : (d.account_id == a.id) = false := by
        simp only [beq_eq_false_iff_ne]
        exact Ne.symm hyne
      simp only [hX, hY, if_true, Bool.false_eq_true, if_false]
      rw [hsum, holdContrib, hnewContrib, ← hbal, balanceChange_subtract]
      simp only [hX', hY', beq_self_eq_true, if_true, Bool.false_eq_true, if_false]
      ring
  · have hxne : a.id ≠ old.account_id := by simpa using hX
    have hX' : (old.account_id == a.id) = false := by
      simp only [beq_eq_false_iff_ne]
      exact Ne.symm hxne
    by_cases hY : (a.id == d.account_id) = true
    · have hY' : d.account_id = a.id := (by simpa using hY : a.id = d.account_id).symm
      simp only [hX, hY, if_true, Bool.false_eq_true, if_false]
      rw [hsum, holdContrib, hnewContrib, ← hbal, balanceChange_add]
      simp only [hX', hY', beq_self_eq_true, if_true, Bool.false_eq_true, if_false]
      ring
    · have hyne : a.id ≠ d.account_id := by simpa using hY
      have hY' : (d.account_id == a.id) = false := by
        simp only [beq_eq_false_iff_ne]
        exact Ne.symm hyne
      simp only [hX, hY, Bool.false_eq_true, if_false]
      rw [hsum, holdContrib, hnewContrib, ← hbal]
      simp only [hX', hY', Bool.false_eq_true, if_false]
      ring

theorem balanced_state_delete (db : DB) (t : Txn) (id : Nat)
    (hnd : (db.transactions.map Txn.id).Nodup)
    (hmem : t ∈ db.transactions) (hid : t.id = id) (hact : t.is_active = true)
    (hb : balanced db) :
    balanced (updateAccountBalance
      { db with transactions := db.transactions.map (fun s =>
          if s.id == id then { s with is_active := false } else s) }
      t.account_id t.ttype t.amount .subtract) := by
  intro x hx
  have hx' : x ∈ db.accounts.map (fun a =>
      if a.id == t.account_id then
        { a with balance := a.balance + balanceChange t.ttype t.amount .subtract }
      else a) := hx
  obtain ⟨a, ha, rfl⟩ := List.mem_map.mp hx'
  have hbal := hb a ha
  have hgid : ∀ s : Txn, s.id ≠ id →
      (if s.id == id then { s with is_active := false } else s) = s := by
    intro s hs
    simp [show (s.id == id) = false from by simpa using hs]
  have hsum := signedSum_map_single
    (fun s => if s.id == id then { s with is_active := false } else s)
    id a.id db.transactions hnd t hmem hid hgid
  have hbid : (t.id == id) = true := by simp [hid]
  simp only [hbid, if_true] at hsum
  have hdeadContrib : activeContrib a.id
      ({ t with is_active := false } : Txn) = 0 := by
    simp [activeContrib]
  have holdContrib : activeContrib a.id t
      = if t.account_id == a.id then direction t.ttype * t.amount else 0 := by
    simp [activeContrib, hact]
  show _ = signedSum (db.transactions.map (fun s =>
      if s.id == id then { s with is_active := false } else s)) _
  by_cases hX : (a.id == t.account_id) = true
  · have hX' : t.account_id = a.id := (by simpa using hX : a.id = t.account_id).symm
    simp only [hX, if_true]
    rw [hsum, holdContrib, hdeadContrib, ← hbal, balanceChange_subtract]
    simp only [hX', beq_self_eq_true, if_true]
    ring
  · have hxne : a.id ≠ t.account_id := by simpa using hX
    have hX' : (t.account_id == a.id) = false := by
      simp only [beq_eq_false_iff_ne]
      exact Ne.symm hxne
    simp only [hX, Bool.false_eq_true, if_false]
    rw [hsum, holdContrib, hdeadContrib, ← hbal]
    simp only [hX', Bool.false_eq_true, if_false]
    ring

theorem countP_id_pos {db : DB} {id : Nat} {t : Txn}
    (hold : getTransactionById db id = some t) :
    (db.transactions.countP (fun s => s.id == id) == 0) = false := by
  obtain ⟨hmem, hid, _⟩ := getTransactionById_spec hold
  have hpos : 0 < db.transactions.countP (fun s => s.id == id) :=
    List.countP_pos_iff.mpr ⟨t, hmem, by simp [hid]⟩
  simpa using Nat.pos_iff_ne_zero.mp hpos

theorem balanced_updateTransaction (db : DB) (id : Nat) (d : TxnData)
    (hnd : (db.transactions.map Txn.id).Nodup) (hb : balanced db) :
    balanced (updateTransaction db id d).1 := by
  unfold updateTransaction
  split
  · exact hb
  case h_2 old heq =>
    obtain ⟨hmem, hid, hact⟩ := getTransactionById_spec heq
    split
    · exact hb
    split
    · exact hb
    split
    · exact hb
    split
    · exact hb
    simp only []
    split
    case isTrue haff =>
      exfalso
      have hcp := countP_active_pos heq
      rw [show (updateAccountBalance db old.account_id old.ttype old.amount
        .subtract).transactions = db.transactions from rfl] at haff
      rw [hcp] at haff
      exact Bool.false_ne_true haff
    case isFalse haff =>
      exact balanced_state_update db old d id hnd hmem hid hact hb

theorem balanced_deleteTransaction (db : DB) (id : Nat)
    (hnd : (db.transactions.map Txn.id).Nodup) (hb : balanced db) :
    balanced (deleteTransaction db id).1 := by
  unfold deleteTransaction
  split
  · exact hb
  case h_2 t heq =>
    obtain ⟨hmem, hid, hact⟩ := getTransactionById_spec heq
    simp only []
    split
    case isTrue haff =>
      exfalso
      have hcp := countP_id_pos heq
      rw [hcp] at haff
      exact Bool.false_ne_true haff
    case isFalse haff =>
      exact balanced_state_delete db t id hnd hmem hid hact hb

theorem map_id_preserved {g : Txn → Txn} (hg : ∀ t : Txn, (g t).id = t.id)
    (l : List Txn) : (l.map g).map Txn.id = l.map Txn.id := by
  rw [List.map_map]
  have : Txn.id ∘ g = Txn.id := funext hg
  rw [this]

theorem WF_map_txns {db : DB} {g : Txn → Txn} (hg : ∀ t : Txn, (g t).id = t.id)
    (hwf : WF db) :
    WF { db with transactions := db.transactions.map g } := by
  obtain ⟨hnd, hlt⟩ := hwf
  constructor
  · show ((db.transactions.map g).map Txn.id).Nodup
    rw [map_id_preserved hg]
    exact hnd
  · intro t ht
    obtain ⟨s, hs, rfl⟩ := List.mem_map.mp ht
    show (g s).id < db.nextTxnId
    rw [hg s]
    exact hlt s hs

theorem WF_updateTransaction (db : DB) (id : Nat) (d : TxnData) (hwf : WF db) :
    WF (updateTransaction db id d).1 := by
  unfold updateTransaction
  split
  · exact hwf
  case h_2 old heq =>
    split
    · exact hwf
    split
    · exact hwf
    split
    · exact hwf
    split
    · exact hwf
    simp only []
    have hg : ∀ t : Txn,
        ((if t.id == id && t.is_active then applyTxnData t old d else t) : Txn).id
          = t.id := by
      intro t
      by_cases h : (t.id == id && t.is_active) = true <;> simp [h, applyTxnData]
    split
    · exact WF_map_txns hg hwf
    · have h2 := WF_map_txns hg hwf
      exact ⟨h2.1, h2.2⟩

theorem WF_deleteTransaction (db : DB) (id : Nat) (hwf : WF db) :
    WF (deleteTransaction db id).1 := by
  unfold deleteTransaction
  split
  · exact hwf
  case h_2 t heq =>
    simp only []
    have hg : ∀ s : Txn,
        ((if s.id == id then { s with is_active := false } else s) : Txn).id
          = s.id := by
      intro s
      by_cases h : (s.id == id) = true <;> simp [h]
    split
    · exact WF_map_txns hg hwf
    · have h2 := WF_map_txns hg hwf
      exact ⟨h2.1, h2.2⟩

theorem balanced_applyOp (db : DB) (op : LedgerOp) (hwf : WF db)
    (hb : balanced db) : balanced (applyOp db op) := by
  cases op with
  | create d => exact balanced_createTransaction db d hb
  | update id d => exact balanced_updateTransaction db id d hwf.1 hb
  | del id => exact balanced_deleteTransaction db id hwf.1 hb

theorem WF_applyOp (db : DB) (op : LedgerOp) (hwf : WF db) : WF (applyOp db op) := by
  cases op with
  | create d => exact WF_createTransaction db d hwf
  | update id d => exact WF_updateTransaction db id d hwf
  | del id => exact WF_deleteTransaction db id hwf

theorem signedSum_eq_filter (txns : List Txn) (j : Nat) :
    signedSum txns j = ((txns.filter (fun t => t.account_id == j && t.is_active)).map
      (fun t => direction t.ttype * t.amount)).sum := by
  induction txns with
  | nil => rfl
  | cons t l ih =>
    rw [signedSum_cons, ih, List.filter_cons]
    by_cases h : (t.account_id == j && t.is_active) = true <;>
      simp [h, activeContrib]

theorem balanced_applyOps (db : DB) (ops : List LedgerOp)
    (hwf : WF db) (hb : balanced db) : balanced (applyOps db ops) := by
  induction ops generalizing db with
  | nil => exact hb
  | cons op ops ih =>
    exact ih (applyOp db op) (WF_applyOp db op hwf) (balanced_applyOp db op hwf hb)

theorem updateTransaction_balanceOf (db : DB) (id : Nat) (d : TxnData) (old : Txn)
    (hold : getTransactionById db id = some old)
    (h1 : (d.account_id == 0) = false)
    (h2 : ¬ d.amount ≤ 0)
    (h3 : accountActiveExists db d.account_id = true)
    (h4 : (truthy d.reference_number &&
      refTakenOther db (d.reference_number.getD "") id) = false)
    (j : Nat) (hj : accountRow db j = true) :
    (updateTransaction db id d).2 = .ok () ∧
    balanceOf (updateTransaction db id d).1 j
      = balanceOf db j
        - (if j == old.account_id then direction old.ttype * old.amount else 0)
        + (if j == d.account_id then direction d.transaction_type * d.amount else 0) := by
  rw [updateTransaction_eq db id d old hold h1 h2 h3 h4]
  refine ⟨rfl, ?_⟩
  have hmid : accountRow
      ({ updateAccountBalance db old.account_id old.ttype old.amount .subtract with
        transactions := db.transactions.map (fun t =>
          if t.id == id && t.is_active then applyTxnData t old d else t) }) j = true := by
    show accountRow (updateAccountBalance db old.account_id old.ttype old.amount .subtract) j = true
    rw [accountRow_updateAccountBalance]
    exact hj
  have e2 := balanceOf_updateAccountBalance
    ({ updateAccountBalance db old.account_id old.ttype old.amount .subtract with
      transactions := db.transactions.map (fun t =>
        if t.id == id && t.is_active then applyTxnData t old d else t) })
    d.account_id j d.transaction_type d.amount .add hmid
  have e1 := balanceOf_updateAccountBalance db old.account_id j old.ttype
    old.amount .subtract hj
  rw [e2]
  rw [show balanceOf
      ({ updateAccountBalance db old.account_id old.ttype old.amount .subtract with
        transactions := db.transactions.map (fun t =>
          if t.id == id && t.is_active then applyTxnData t old d else t) }) j
      = balanceOf (updateAccountBalance db old.account_id old.ttype old.amount .subtract) j
    from rfl]
  rw [e1, balanceChange_subtract, balanceChange_add]
  by_cases hx : (j == old.account_id) = true <;>
    by_cases hy : (j == d.account_id) = true <;>
      simp [hx, hy] <;> ring

theorem deleteTransaction_eq (db : DB) (id : Nat) (t : Txn)
    (hg : getTransactionById db id = some t) :
    deleteTransaction db id
      = (updateAccountBalance
          { db with transactions := db.transactions.map (fun s =>
              if s.id == id then { s with is_active := false } else s) }
          t.account_id t.ttype t.amount .subtract, .ok ()) := by
  have h5 := countP_id_pos hg
  simp only [deleteTransaction, hg, h5, Bool.false_eq_true, if_false]

theorem countP_account_pos {db : DB} {id : Nat} {acc : Account}
    (hacc : getAccountById db id = some acc) :
    (db.accounts.countP (fun a => a.id == id && a.is_active) == 0) = false := by
  obtain ⟨hmem, hid, hact⟩ := getAccountById_spec hacc
  have hpos : 0 < db.accounts.countP (fun a => a.id == id && a.is_active) :=
    List.countP_pos_iff.mpr ⟨acc, hmem, by simp [hid, hact]⟩
  simpa using Nat.pos_iff_ne_zero.mp hpos

/-- C1: Balance reconciliation invariant.  Starting from a database whose
accounts all store the signed sum of their active movements (and whose
movement ids form a primary key with a fresh auto-increment counter), after
any completed sequence of movement create / update / delete operations every
stored balance of the account equals the sum of `direction(type) * amount` over the
currently-active movements referencing it. -/
theorem claim1_balance_invariant (db : DB) (ops : List LedgerOp)
    (hwf : WF db) (hb : balanced db) :
    ∀ a ∈ (applyOps db ops).accounts,
      a.balance = (((applyOps db ops).transactions.filter
        (fun t => t.account_id == a.id && t.is_active)).map
        (fun t => direction t.ttype * t.amount)).sum := by
  intro a ha
  rw [← signedSum_eq_filter]
  exact balanced_applyOps db ops hwf hb a ha

/-- C2: Cross-account move on update.  For an existing active movement (on
account `old.account_id`) and a valid update request targeting account
`d.account_id`, the update succeeds, the reversal `direction(old) * old.amount`
is subtracted from the old account and the new delta
`direction(new) * new.amount` is added to the new account (both effects land on
the same account when the ids coincide). -/
theorem claim2_cross_account_move (db : DB) (id : Nat) (d : TxnData) (old : Txn)
    (hold : getTransactionById db id = some old)
    (h1 : (d.account_id == 0) = false)
    (h2 : ¬ d.amount ≤ 0)
    (h3 : accountActiveExists db d.account_id = true)
    (h4 : (truthy d.reference_number &&
      refTakenOther db (d.reference_number.getD "") id) = false)
    (j : Nat) (hj : accountRow db j = true) :
    (updateTransaction db id d).2 = .ok () ∧
    balanceOf (updateTransaction db id d).1 j
      = balanceOf db j
        - (if j == old.account_id then direction old.ttype * old.amount else 0)
        + (if j == d.account_id then direction d.transaction_type * d.amount else 0) :=
  updateTransaction_balanceOf db id d old hold h1 h2 h3 h4 j hj

/-- C3: Directional sign rule.  The balance-adjustment primitive adds
`+amount` for `income`/`receivable` and `-amount` for `expense`/`payable`,
`subtract` negates exactly, the primitive changes only the stored balance of the target
account by that delta, and consequently updating the amount of a movement
from A to B on the same account with the same type changes the balance of
that account by exactly `direction(type) * (B - A)`. -/
theorem claim3_direction_rule :
    (∀ q : Int, balanceChange .income q .add = q ∧
      balanceChange .receivable q .add = q ∧
      balanceChange .expense q .add = -q ∧
      balanceChange .payable q .add = -q) ∧
    (∀ (ty : TType) (q : Int),
      balanceChange ty q .subtract = -(balanceChange ty q .add)) ∧
    (∀ (db : DB) (i j : Nat) (ty : TType) (q : Int) (op : BalanceOp),
      accountRow db j = true →
      balanceOf (updateAccountBalance db i ty q op) j
        = balanceOf db j + (if j == i then balanceChange ty q op else 0)) ∧
    (∀ (db : DB) (id : Nat) (d : TxnData) (old : Txn),
      getTransactionById db id = some old →
      (d.account_id == 0) = false →
      ¬ d.amount ≤ 0 →
      accountActiveExists db d.account_id = true →
      (truthy d.reference_number &&
        refTakenOther db (d.reference_number.getD "") id) = false →
      d.account_id = old.account_id →
      d.transaction_type = old.ttype →
      accountRow db old.account_id = true →
      balanceOf (updateTransaction db id d).1 old.account_id
        = balanceOf db old.account_id
          + direction old.ttype * (d.amount - old.amount)) := by
  refine ⟨?_, ?_, ?_, ?_⟩
  · intro q
    exact ⟨rfl, rfl, rfl, rfl⟩
  · intro ty q
    cases ty <;> simp [balanceChange]
  · intro db i j ty q op hj
    exact balanceOf_updateAccountBalance db i j ty q op hj
  · intro db id d old hold h1 h2 h3 h4 hsameAcc hsameType hrow
    have h := (updateTransaction_balanceOf db id d old hold h1 h2 h3 h4
      old.account_id hrow).2
    rw [h, hsameAcc, hsameType]
    simp only [beq_self_eq_true, if_true]
    ring

/-- C7: Idempotence of reversal.  When deleting a movement succeeds, deleting
it again fails with the not-found error and leaves the whole database state
(in particular every stored balance) unchanged: the reversal is applied exactly
once. -/
theorem claim7_delete_idempotent (db : DB) (id : Nat)
    (h : (deleteTransaction db id).2 = .ok ()) :
    deleteTransaction (deleteTransaction db id).1 id
      = ((deleteTransaction db id).1, .err .notFound) := by
  rcases hg : getTransactionById db id with _ | t
  · exfalso
    unfold deleteTransaction at h
    rw [hg] at h
    simp at h
  · rw [deleteTransaction_eq db id t hg]
    show deleteTransaction (updateAccountBalance
      { db with transactions := db.transactions.map (fun s =>
          if s.id == id then { s with is_active := false } else s) }
      t.account_id t.ttype t.amount .subtract) id = _
    have hmap : (updateAccountBalance
        { db with transactions := db.transactions.map (fun s =>
            if s.id == id then { s with is_active := false } else s) }
        t.account_id t.ttype t.amount .subtract).transactions
        = db.transactions.map (fun s =>
            if s.id == id then { s with is_active := false } else s) := rfl
    have hfil : (updateAccountBalance
        { db with transactions := db.transactions.map (fun s =>
            if s.id == id then { s with is_active := false } else s) }
        t.account_id t.ttype t.amount .subtract).transactions.filter
          (fun s => s.id == id && s.is_active) = [] := by
      rw [hmap]
      apply List.filter_eq_nil_iff.mpr
      intro x hx
      obtain ⟨s, hs, rfl⟩ := List.mem_map.mp hx
      by_cases hsid : (s.id == id) = true <;> simp [hsid]
    have hnone : getTransactionById (updateAccountBalance
        { db with transactions := db.transactions.map (fun s =>
            if s.id == id then { s with is_active := false } else s) }
        t.account_id t.ttype t.amount .subtract) id = none := by
      unfold getTransactionById
      rw [hfil]
      rfl
    simp only [deleteTransaction, hnone]

/-- C4 (amended): Create atomicity on missing account.  For a create-movement
request that passes the field validations (nonzero account id, positive
amount, nonempty transaction date) and whose `account_id` references no
existing active account, the create fails with the account-not-found error and
the database — movement rows and every account balance — is unchanged. -/
theorem claim4_create_missing_account (db : DB) (d : TxnData)
    (h1 : (d.account_id == 0) = false)
    (h2 : ¬ d.amount ≤ 0)
    (h3 : (d.transaction_date == "") = false)
    (h4 : accountActiveExists db d.account_id = false) :
    createTransaction db d = (db, .err .accountNotFound) := by
  simp only [createTransaction, h1, h2, h3, h4, Bool.not_false, if_true,
    Bool.false_eq_true, if_false, ite_false]

/-- C5 (amended): Account-deletion guard.  `deleteAccount` fails with the
dependents error exactly on linked `invoices` / `payments` rows: when the
account exists (active) and at least one such linked row references it, the
call fails with `hasDependents` and the database is unchanged.  (Rows of the
`transactions` table are not consulted; see the counterexample.) -/
theorem claim5_delete_account_guard (db : DB) (id : Nat) (acc : Account)
    (hacc : getAccountById db id = some acc)
    (hdep : 0 < (db.invoices.filter (fun c => c == id)).length +
      (db.payments.filter (fun c => c == id)).length) :
    deleteAccount db id = (db, .err .hasDependents) := by
  simp only [deleteAccount, hacc, if_pos hdep]

/-- C6 (amended): Group-deletion guard.  `deleteGroup` fails with the
dependents error whenever any `accounts` row — active or soft-deleted — still
carries `group_id = id`, and performs a hard row delete when no row does (so
reassigning the `group_id` of the accounts unblocks the delete, while soft-deleting
the accounts does not, since soft-deleted rows keep their `group_id`; see the
counterexample). -/
theorem claim6_delete_group_guard (db : DB) (id : Nat) (g : AGroup)
    (hg : (db.groups.filter (fun x => x.id == id)).head? = some g) :
    (0 < db.accounts.countP (fun a => a.group_id == some id) →
      deleteGroup db id = (db, .err .hasDependents)) ∧
    (db.accounts.countP (fun a => a.group_id == some id) = 0 →
      deleteGroup db id
        = ({ db with groups := db.groups.filter (fun x => !(x.id == id)) },
          .ok ())) := by
  constructor
  · intro hdep
    simp only [deleteGroup, hg, if_pos hdep]
  · intro hzero
    have hmem : g ∈ db.groups.filter (fun x => x.id == id) :=
      List.mem_of_mem_head? (by simp [hg])
    have hgp := List.mem_filter.mp hmem
    have hne : (db.groups.countP (fun x => x.id == id) == 0) = false := by
      have hpos : 0 < db.groups.countP (fun x => x.id == id) :=
        List.countP_pos_iff.mpr ⟨g, hgp.1, hgp.2⟩
      simpa using Nat.pos_iff_ne_zero.mp hpos
    simp only [deleteGroup, hg, hzero, Nat.lt_irrefl, if_false, hne,
      Bool.false_eq_true]

/-- Result predicate: the operation failed and the error is one of the
controller-level validation errors. -/
def failsValidation {a : Type} : Res a → Prop
  | .ok _ => False
  | .err e => isValidationError e = true

theorem httpCreate_overflow_fst (db : DB) (r : HttpCreateReq) (q : Int)
    (hq : r.tutar = some q) (hbig : maxAmount < q) :
    (httpCreateTransaction db r).1 = db := by
  simp only [httpCreateTransaction]
  split
  · rfl
  split
  · rfl
  split
  case h_1 heq =>
    simp [hq] at heq
  case h_2 q2 heq =>
    rw [hq] at heq
    cases heq
    repeat'
      first
      | rfl
      | exact absurd hbig (by assumption)
      | split

theorem httpCreate_overflow_snd (db : DB) (r : HttpCreateReq) (q : Int)
    (hq : r.tutar = some q) (hbig : maxAmount < q) :
    failsValidation (httpCreateTransaction db r).2 := by
  simp only [httpCreateTransaction]
  split
  · exact rfl
  split
  · exact rfl
  split
  case h_1 heq =>
    simp [hq] at heq
  case h_2 q2 heq =>
    rw [hq] at heq
    cases heq
    repeat'
      first
      | exact rfl
      | exact absurd hbig (by assumption)
      | split

/-- C8: Amount upper bound on create.  Every `POST /api/transactions` request
whose amount exceeds `999999999.99` (modelled in hundredths) fails in the
controller with a validation error: no movement row is inserted and no balance
changes anywhere (the database is returned unchanged). -/
theorem claim8_amount_upper_bound (db : DB) (r : HttpCreateReq) (q : Int)
    (hq : r.tutar = some q) (hbig : maxAmount < q) :
    (httpCreateTransaction db r).1 = db ∧
    failsValidation (httpCreateTransaction db r).2 :=
  ⟨httpCreate_overflow_fst db r q hq hbig, httpCreate_overflow_snd db r q hq hbig⟩

/-- C10: An explicit zero balance can never be set through the account-update
path.  For an active account and an otherwise valid update request that
supplies `balance = 0`, `updateAccount` succeeds but every updated row keeps
the previously stored balance (the falsy `0` falls back through
`parseFloat(balance) || existing.balance`). -/
theorem claim10_zero_balance_ignored (db : DB) (id : Nat) (acc : Account)
    (d : AccountData)
    (hacc : getAccountById db id = some acc)
    (hbal : d.balance = some 0)
    (hname : (jsTrim d.account_name == "") = false)
    (hcode : (truthy d.account_code &&
      codeTakenOther db (d.account_code.getD "") id) = false)
    (hnm : nameTakenOther db (jsTrim d.account_name) id = false)
    (hgrp : (natTruthy d.group_id && !(groupExists db (d.group_id.getD 0))) = false)
    (hem : emailBad d.email = false) :
    (updateAccount db id d).2 = .ok () ∧
    ∀ a ∈ (updateAccount db id d).1.accounts,
      (a.id == id && a.is_active) = true → a.balance = acc.balance := by
  have haff := countP_account_pos hacc
  have heqn : updateAccount db id d
      = ({ db with accounts := db.accounts.map (fun a =>
          if a.id == id && a.is_active then
            { a with
              account_name := jsTrim d.account_name
              account_code := jsOrNull d.account_code
              group_id := if natTruthy d.group_id then d.group_id else none
              phone := jsOrNull d.phone
              email := match d.email with
                | some e => if e == "" then none else some (jsTrim e)
                | none => none
              address := jsOrNull d.address
              tax_number := jsOrNull d.tax_number
              tax_office := jsOrNull d.tax_office
              balance := acc.balance
              account_type := jsOr d.account_type acc.account_type }
          else a) }, .ok ()) := by
    simp only [updateAccount, hacc, hname, hcode, hnm, hgrp, hem, hbal, haff,
      Bool.false_eq_true, if_false, beq_self_eq_true, if_true]
  rw [heqn]
  refine ⟨rfl, ?_⟩
  intro a ha hpa
  obtain ⟨b, hb, rfl⟩ := List.mem_map.mp ha
  by_cases hc : (b.id == id && b.is_active) = true
  · simp only [hc, if_true]
  · rw [if_neg (by simpa using hc)] at hpa ⊢
    exact absurd hpa (by simpa using hc)

/-- Sample account row builder for concrete instances. -/
def acct (i : Nat) (bal : Int) (grp : Option Nat) (nm : String) (act : Bool) : Account :=
  { id := i, account_name := nm, account_code := none, group_id := grp,
    phone := none, email := none, address := none, tax_number := none,
    tax_office := none, balance := bal, account_type := "customer",
    is_active := act }

/-- Sample movement row builder for concrete instances. -/
def txn (i aid : Nat) (ty : TType) (amt : Int) (act : Bool) : Txn :=
  { id := i, account_id := aid, ttype := ty, amount := amt, description := none,
    reference_number := none, transaction_date := "2024-01-15",
    due_date := none, payment_method := "cash", status := "completed",
    is_active := act }

/-- Sample movement request builder for concrete instances. -/
def dataFor (aid : Nat) (ty : TType) (amt : Int) : TxnData :=
  { account_id := aid, transaction_type := ty, amount := amt,
    description := none, reference_number := none,
    transaction_date := "2024-01-15", due_date := none,
    payment_method := none, status := none }

instance decidableBalanced (db : DB) : Decidable (balanced db) :=
  inferInstanceAs (Decidable (∀ a ∈ db.accounts,
    a.balance = signedSum db.transactions a.id))

instance decidableWF (db : DB) : Decidable (WF db) :=
  inferInstanceAs (Decidable ((db.transactions.map Txn.id).Nodup ∧
    ∀ t ∈ db.transactions, t.id < db.nextTxnId))

def db1W : DB :=
  { groups := [], accounts := [acct 1 0 none "Ahmet" true, acct 2 0 none "Mehmet" true],
    transactions := [], invoices := [], payments := [], nextTxnId := 1 }

def ops1W : List LedgerOp :=
  [.create (dataFor 1 .income 150050), .update 1 (dataFor 2 .expense 50000), .del 1]

theorem claim1_witness :
    WF db1W ∧ balanced db1W ∧ balanced (applyOps db1W ops1W) :=
  ⟨by decide, by decide, by
    intro a ha
    rw [signedSum_eq_filter]
    exact claim1_balance_invariant db1W ops1W (by decide) (by decide) a ha⟩

def db2W : DB :=
  { groups := [], accounts := [acct 1 7 none "A" true, acct 2 0 none "B" true],
    transactions := [txn 1 1 .income 7 true], invoices := [], payments := [],
    nextTxnId := 2 }

def old2W : Txn := txn 1 1 .income 7 true

def d2W : TxnData := dataFor 2 .expense 5

theorem claim2_witness :
    (updateTransaction db2W 1 d2W).2 = .ok () ∧
    balanceOf (updateTransaction db2W 1 d2W).1 1 = 0 ∧
    balanceOf (updateTransaction db2W 1 d2W).1 2 = -5 := by
  have hA := claim2_cross_account_move db2W 1 d2W old2W (by decide) (by decide)
    (by decide) (by decide) (by decide) 1 (by decide)
  have hB := claim2_cross_account_move db2W 1 d2W old2W (by decide) (by decide)
    (by decide) (by decide) (by decide) 2 (by decide)
  exact ⟨hA.1, by rw [hA.2]; decide, by rw [hB.2]; decide⟩

def db3W : DB :=
  { groups := [], accounts := [acct 1 7 none "A" true],
    transactions := [txn 1 1 .income 7 true], invoices := [], payments := [],
    nextTxnId := 2 }

def old3W : Txn := txn 1 1 .income 7 true

def d3W : TxnData := dataFor 1 .income 9

theorem claim3_witness :
    balanceChange .income 5 .add = 5 ∧
    balanceChange .expense 5 .subtract = -(balanceChange .expense 5 .add) ∧
    balanceOf (updateAccountBalance db2W 1 .income 5 .add) 1
      = balanceOf db2W 1 + (if (1 : Nat) == 1 then balanceChange .income 5 .add else 0) ∧
    balanceOf (updateTransaction db3W 1 d3W).1 old3W.account_id
      = balanceOf db3W old3W.account_id
        + direction old3W.ttype * (d3W.amount - old3W.amount) :=
  ⟨(claim3_direction_rule.1 5).1,
   claim3_direction_rule.2.1 .expense 5,
   claim3_direction_rule.2.2.1 db2W 1 1 .income 5 .add (by decide),
   claim3_direction_rule.2.2.2 db3W 1 d3W old3W (by decide) (by decide)
     (by decide) (by decide) (by decide) rfl rfl (by decide)⟩

def db4W : DB :=
  { groups := [], accounts := [acct 1 0 none "A" true], transactions := [],
    invoices := [], payments := [], nextTxnId := 1 }

def req4W : TxnData := dataFor 2 .income 0

/-- C4 counterexample: a create request whose `account_id` references no
active account but whose amount is also invalid fails with the amount
validation error, not with the account-not-found error, refuting the claim as
universally stated (no row is inserted and no balance changes either way). -/
theorem claim4_counterexample :
    accountActiveExists db4W req4W.account_id = false ∧
    createTransaction db4W req4W = (db4W, .err .invalidAmount) ∧
    ApiError.invalidAmount ≠ ApiError.accountNotFound := by decide

def req4V : TxnData := dataFor 2 .income 5

theorem claim4_witness :
    createTransaction db4W req4V = (db4W, .err .accountNotFound) :=
  claim4_create_missing_account db4W req4V (by decide) (by decide) (by decide)
    (by decide)

def db5W : DB :=
  { groups := [], accounts := [acct 1 150050 none "A" true],
    transactions := [txn 1 1 .income 150050 true], invoices := [],
    payments := [], nextTxnId := 2 }

/-- C5 counterexample: an active account referenced by an active
`transactions` row (and with no `invoices`/`payments` rows) is soft-deleted
successfully — `deleteAccount` neither fails with the dependents error nor
leaves the account active, refuting the claim. -/
theorem claim5_counterexample :
    (db5W.transactions.any (fun t => t.account_id == 1)) = true ∧
    (deleteAccount db5W 1).2 = .ok () ∧
    ((deleteAccount db5W 1).1.accounts.all
      (fun a => !(a.id == 1) || !a.is_active)) = true := by decide

def db5V : DB :=
  { groups := [], accounts := [acct 1 150050 none "A" true],
    transactions := [txn 1 1 .income 150050 true], invoices := [1],
    payments := [], nextTxnId := 2 }

def acc5V : Account := acct 1 150050 none "A" true

theorem claim5_witness :
    deleteAccount db5V 1 = (db5V, .err .hasDependents) :=
  claim5_delete_account_guard db5V 1 acc5V (by decide) (by decide)

def db6W : DB :=
  { groups := [{ id := 1, group_name := "Musteriler" }],
    accounts := [acct 1 0 (some 1) "A" true], transactions := [],
    invoices := [], payments := [], nextTxnId := 1 }

/-- C6 counterexample: after the only account referencing group 1 is deleted
through `deleteAccount` (a soft delete), `deleteGroup` still fails with the
dependents error, because the guard counts soft-deleted rows too — refuting
the claim that group deletion succeeds once every referencing account has been
deleted. -/
theorem claim6_counterexample :
    (deleteAccount db6W 1).2 = .ok () ∧
    ((deleteAccount db6W 1).1.accounts.all
      (fun a => !(a.group_id == some 1) || !a.is_active)) = true ∧
    (deleteGroup (deleteAccount db6W 1).1 1).2 = .err .hasDependents := by decide

def db6V : DB :=
  { groups := [{ id := 1, group_name := "G1" }, { id := 2, group_name := "G2" }],
    accounts := [acct 1 0 (some 1) "A" true], transactions := [],
    invoices := [], payments := [], nextTxnId := 1 }

def g1V : AGroup := { id := 1, group_name := "G1" }

def g2V : AGroup := { id := 2, group_name := "G2" }

theorem claim6_witness :
    deleteGroup db6V 1 = (db6V, .err .hasDependents) ∧
    deleteGroup db6V 2
      = ({ db6V with groups := db6V.groups.filter (fun x => !(x.id == 2)) },
        .ok ()) :=
  ⟨(claim6_delete_group_guard db6V 1 g1V (by decide)).1 (by decide),
   (claim6_delete_group_guard db6V 2 g2V (by decide)).2 (by decide)⟩

def db7W : DB :=
  { groups := [], accounts := [acct 1 300 none "A" true],
    transactions := [txn 1 1 .income 300 true], invoices := [], payments := [],
    nextTxnId := 2 }

theorem claim7_witness :
    deleteTransaction (deleteTransaction db7W 1).1 1
      = ((deleteTransaction db7W 1).1, .err .notFound) :=
  claim7_delete_idempotent db7W 1 (by decide)

def db8W : DB :=
  { groups := [], accounts := [acct 1 0 none "A" true], transactions := [],
    invoices := [], payments := [], nextTxnId := 1 }

def req8W : HttpCreateReq :=
  { cari_id := 1, islem_tipi := some "income", tutar := some 100000000000,
    islem_tarihi := some "2024-01-15", aciklama := none, referans_no := none,
    vade_tarihi := none, odeme_yontemi := none, durum := none }

theorem claim8_witness :
    ((httpCreateTransaction db8W req8W).1 = db8W ∧
      failsValidation (httpCreateTransaction db8W req8W).2) ∧
    (httpCreateTransaction db8W req8W).2 = .err .amountTooBig :=
  ⟨claim8_amount_upper_bound db8W req8W 100000000000 rfl (by decide), by decide⟩

def f9W : Filters :=
  { cari_id := some 1, islem_tipi := none, min_tutar := none, max_tutar := none,
    baslangic_tarihi := none, bitis_tarihi := none,
    aciklama_icinde := some "ab", status := none, payment_method := none,
    limit := some 10, offset := none }

/-- C9: the `countParams` slice for the total-count query is wrong whenever a
text search is combined with another condition and a limit: the count query
has three placeholders (one per `conditionParams` entry) but the slice keeps
four parameters — the `LIMIT` value leaks in, although the comment in the source
says limit and offset are to be excluded.  The storage call therefore fails
instead of returning the unpaginated total. -/
theorem claim9_count_params_bug :
    conditionParams f9W
      = [.pNat 1, .pStr "%ab%", .pStr "%ab%"] ∧
    countParams f9W
      = [.pNat 1, .pStr "%ab%", .pStr "%ab%", .pNat 10] ∧
    countParams f9W ≠ conditionParams f9W := by decide

def db10W : DB :=
  { groups := [], accounts := [acct 1 500 none "Ahmet" true],
    transactions := [], invoices := [], payments := [], nextTxnId := 1 }

def acc10W : Account := acct 1 500 none "Ahmet" true

def d10W : AccountData :=
  { account_name := "Ahmet", account_code := none, group_id := none,
    phone := none, email := none, address := none, tax_number := none,
    tax_office := none, balance := some 0, account_type := none }

theorem claim10_witness :
    (updateAccount db10W 1 d10W).2 = .ok () ∧
    balanceOf (updateAccount db10W 1 d10W).1 1 = 500 ∧
    (500 : Int) ≠ 0 :=
  ⟨(claim10_zero_balance_ignored db10W 1 acc10W d10W (by decide) rfl
      (by decide) (by decide) (by decide) (by decide) (by decide)).1,
   by decide, by decide⟩
